import Mathlib

/-!
Verification development for the P9-ML membrane-computing module
(`src/ggml-p9ml.c`): a shallow embedding of the membrane tree, the
namespace, the QAT configuration, and the four transformation passes,
together with theorems settling the specification's claims.

Modelling conventions:
* C pointers that may be NULL become `Option`; object identity of
  heap-allocated membranes and namespaces (their addresses) is modelled by
  a `Nat` identifier chosen at creation.
* Numeric buffer contents are modelled as exact rationals through the
  spec's Buffer capability (`raw_float_view`): the tensor engine itself is
  an external collaborator, so a buffer is its element-type tag plus an
  optional sequence of rational element values (`none` models a NULL data
  pointer).
* The C `unsigned int` noise seed is a `Nat` reduced mod 2^32; the static
  seed variable is threaded through the passes as explicit state.
* In-place mutation becomes state passing: each operation returns its C
  status code together with the updated values of every object it writes.
-/

namespace P9ML

/-- Element type tags of `enum ggml_type`, restricted to the constructors the
module distinguishes: the passes only test for `GGML_TYPE_F32` and
`GGML_TYPE_F16`; all remaining (quantized / integer) tags behave alike and
are represented by a sample of them. -/
inductive GGMLType where
  | f32
  | f16
  | q4_0
  | q4_1
  | q8_0
  | i8
  | i32
  deriving DecidableEq, Repr

/-- The test `tensor->type != GGML_TYPE_F32 && tensor->type != GGML_TYPE_F16`
from `ggml_p9ml_apply_data_free_qat` (a buffer is skipped exactly when this
is false). -/
def GGMLType.isQuantizable : GGMLType → Bool
  | .f32 => true
  | .f16 => true
  | _ => false

/-- A borrowed buffer (`struct ggml_tensor`) as the core sees it: its element
type and its element values; `data = none` models a NULL data pointer. -/
structure Tensor where
  type : GGMLType
  data : Option (List ℚ)
  deriving DecidableEq, Repr

/-- `struct ggml_p9ml_qat_config`. -/
structure QATConfig where
  target_type : GGMLType
  noise_scale : ℚ
  per_channel : Bool
  mixed_precision : Bool
  temperature : ℚ
  num_steps : Nat
  learning_rate : ℚ
  tile_size : Nat
  use_reference : Bool
  deriving DecidableEq, Repr

/-- `ggml_p9ml_qat_config_new` (allocation assumed to succeed). -/
def ggml_p9ml_qat_config_new (target_type : GGMLType) (noise_scale : ℚ) :
    QATConfig where
  target_type := target_type
  noise_scale := noise_scale
  per_channel := true
  mixed_precision := false
  temperature := 1
  num_steps := 100
  learning_rate := 1/1000
  tile_size := 3
  use_reference := true

/-- `P9ML_MEMBRANE_NAME_MAX` -/
def P9ML_MEMBRANE_NAME_MAX : Nat := 64

/-- `P9ML_DEFAULT_MAX_CHILDREN` -/
def P9ML_DEFAULT_MAX_CHILDREN : Nat := 16

/-- `P9ML_DEFAULT_MAX_OBJECTS` -/
def P9ML_DEFAULT_MAX_OBJECTS : Nat := 256

/-- `P9ML_DEFAULT_MAX_RULES` -/
def P9ML_DEFAULT_MAX_RULES : Nat := 64

/-- The effect of `strncpy(dest, src, P9ML_MEMBRANE_NAME_MAX - 1)` followed by
`dest[P9ML_MEMBRANE_NAME_MAX - 1] = '\0'`: the stored, NUL-terminated name
consists of the first (at most) 63 characters of the source string.  C
strings are modelled as `List Char` (no embedded NUL). -/
def storeName (src : List Char) : List Char :=
  src.take (P9ML_MEMBRANE_NAME_MAX - 1)

/-- The scalar fields of `struct ggml_p9ml_membrane`.  `memId` models the
node's address (object identity); `ctx`, `ns_ref` and `parent` hold the
identities of the context, owning namespace and parent node or `none` for
NULL.  `num_children` and `num_objects` are represented by the lengths of
the `children` / `objects` sequences (the C code increments each counter
exactly when it appends to the corresponding array). -/
structure MData where
  memId : Nat
  name : List Char
  level : Int
  ctx : Option Nat
  ns_ref : Option Nat
  parent : Option Nat
  max_children : Nat
  objects : List Tensor
  max_objects : Nat
  num_rules : Nat
  max_rules : Nat
  qat_config : Option QATConfig
  deriving DecidableEq, Repr

/-- `struct ggml_p9ml_membrane`: its scalar data plus the owned child
subtrees (`children[0 .. num_children-1]`, in insertion order). -/
inductive Membrane where
  | mk (data : MData) (children : List Membrane)

/-- Scalar fields of a membrane node. -/
def Membrane.data : Membrane → MData
  | .mk d _ => d

/-- The children array (first `num_children` entries, insertion order). -/
def Membrane.children : Membrane → List Membrane
  | .mk _ cs => cs

/-- `membrane->num_children`. -/
def Membrane.num_children (m : Membrane) : Nat :=
  m.children.length

/-- `ggml_p9ml_membrane_new` with a fresh identity `memId` (malloc assumed to
succeed; array allocation likewise).  A NULL `name` stores `"unnamed"`. -/
def ggml_p9ml_membrane_new (memId : Nat) (name : Option (List Char))
    (level : Int) (ctx : Option Nat) : Membrane :=
  .mk
    { memId := memId
      name := storeName (name.getD "unnamed".toList)
      level := level
      ctx := ctx
      ns_ref := none
      parent := none
      max_children := P9ML_DEFAULT_MAX_CHILDREN
      objects := []
      max_objects := P9ML_DEFAULT_MAX_OBJECTS
      num_rules := 0
      max_rules := P9ML_DEFAULT_MAX_RULES
      qat_config := none }
    []

/-- `ggml_p9ml_membrane_add_child` on two present (non-NULL) membranes.
Returns the C status code together with the updated parent and the updated
child object (in C the entry stored in `parent->children` and the caller's
`child` pointer alias the same object, so both views are returned). -/
def ggml_p9ml_membrane_add_child (parent child : Membrane) :
    Int × Membrane × Membrane :=
  if parent.children.length ≥ parent.data.max_children then
    (-1, parent, child)
  else
    let child' : Membrane :=
      .mk { child.data with
              parent := some parent.data.memId
              ns_ref := parent.data.ns_ref }
        child.children
    (0, .mk parent.data (parent.children ++ [child']), child')

/-- `ggml_p9ml_membrane_add_object` on a present membrane and a present
tensor.  Returns the C status code and the updated membrane. -/
def ggml_p9ml_membrane_add_object (membrane : Membrane) (tensor : Tensor) :
    Int × Membrane :=
  if membrane.data.objects.length ≥ membrane.data.max_objects then
    (-1, membrane)
  else
    (0, .mk { membrane.data with objects := membrane.data.objects ++ [tensor] }
          membrane.children)

/-- `struct ggml_p9ml_namespace`.  `nsId` models the namespace's address. -/
structure Namespace where
  nsId : Nat
  name : List Char
  root : Option Membrane
  backend : Option Nat
  noise_scale : ℚ
  target_bits : Int
  mixed_precision : Bool
  total_params : Nat
  quantized_params : Nat
  compression_ratio : ℚ

/-- `ggml_p9ml_namespace_new` with a fresh identity (malloc assumed to
succeed).  A NULL `name` stores `"default"`. -/
def ggml_p9ml_namespace_new (nsId : Nat) (name : Option (List Char))
    (backend : Option Nat) : Namespace where
  nsId := nsId
  name := storeName (name.getD "default".toList)
  root := none
  backend := backend
  noise_scale := 1/10
  target_bits := 8
  mixed_precision := false
  total_params := 0
  quantized_params := 0
  compression_ratio := 1

mutual

/-- `ggml_p9ml_propagate_namespace` on a present membrane and a present
namespace (identified by `nsId`): set this node's namespace reference, then
recurse into every child. -/
def ggml_p9ml_propagate_namespace : Membrane → Nat → Membrane
  | .mk d cs, nsId => .mk { d with ns_ref := some nsId } (propagateList cs nsId)

/-- The child loop of `ggml_p9ml_propagate_namespace`. -/
def propagateList : List Membrane → Nat → List Membrane
  | [], _ => []
  | c :: cs, nsId =>
      ggml_p9ml_propagate_namespace c nsId :: propagateList cs nsId

end

/-- `ggml_p9ml_namespace_set_root` on a present namespace; the `root`
argument may be NULL (`none`).  Returns the C status code and the updated
namespace (whose `root`, on success, holds the propagated tree). -/
def ggml_p9ml_namespace_set_root (ns : Namespace) (root : Option Membrane) :
    Int × Namespace :=
  match root with
  | none => (-1, ns)
  | some r => (0, { ns with root := some (ggml_p9ml_propagate_namespace r ns.nsId) })

/-- One step of the LCG in `ggml_p9ml_generate_noise`:
`seed = seed * 1103515245 + 12345` on a 32-bit `unsigned int`. -/
def noiseSeedStep (seed : Nat) : Nat :=
  (seed * 1103515245 + 12345) % 2 ^ 32

/-- `ggml_p9ml_generate_noise`: advance the static seed, mask to 31 bits
(`seed & 0x7FFFFFFF`), normalise into `[0, 1]` by dividing by `0x7FFFFFFF`,
and scale into `[-scale, scale]`.  The seed is explicit state; the float
arithmetic is modelled exactly over `ℚ`. -/
def ggml_p9ml_generate_noise (scale : ℚ) (seed : Nat) : ℚ × Nat :=
  let seed' := noiseSeedStep seed
  let normalized : ℚ := (seed' % 2 ^ 31 : ℕ) / ((2 ^ 31 - 1 : ℕ) : ℚ)
  ((normalized - 1/2) * 2 * scale, seed')

/-- The element loop of `ggml_p9ml_apply_data_free_qat`:
`data[j] += ggml_p9ml_generate_noise(config->noise_scale)` for each element
in order, threading the seed. -/
def addNoise (scale : ℚ) : List ℚ → Nat → List ℚ × Nat
  | [], seed => ([], seed)
  | x :: xs, seed =>
      let p := ggml_p9ml_generate_noise scale seed
      let r := addNoise scale xs p.2
      ((x + p.1) :: r.1, r.2)

/-- The per-tensor body of the object loop in
`ggml_p9ml_apply_data_free_qat`: skip tensors whose type is neither F32 nor
F16, skip a NULL data pointer, otherwise add one noise draw to every
element. -/
def qatTensor (config : QATConfig) (t : Tensor) (seed : Nat) : Tensor × Nat :=
  if t.type ≠ .f32 ∧ t.type ≠ .f16 then (t, seed)
  else
    match t.data with
    | none => (t, seed)
    | some d =>
        let r := addNoise config.noise_scale d seed
        (⟨t.type, some r.1⟩, r.2)

/-- The object loop of `ggml_p9ml_apply_data_free_qat` over
`membrane->objects[0 .. num_objects-1]` in order.  (Entries of the objects
array in range are non-NULL: `add_object` rejects a NULL tensor, so the
`if (!tensor) continue` guard never fires on the stored values.) -/
def qatObjects (config : QATConfig) : List Tensor → Nat → List Tensor × Nat
  | [], seed => ([], seed)
  | t :: ts, seed =>
      let p := qatTensor config t seed
      let r := qatObjects config ts p.2
      (p.1 :: r.1, r.2)

mutual

/-- `ggml_p9ml_apply_data_free_qat` on a present membrane and a present
config (the config-copy malloc assumed to succeed): first-write-wins store
of a copy of `config`, then noise over this node's own objects, then the
recursive calls on the children in order (their status codes are ignored by
the C code).  Returns the updated tree and the threaded seed; the C return
value on this path is always 0. -/
def applyQATMem (config : QATConfig) : Membrane → Nat → Membrane × Nat
  | .mk d cs, seed =>
      let qc' := match d.qat_config with
        | none => some config
        | some c0 => some c0
      let p := qatObjects config d.objects seed
      let r := applyQATList config cs p.2
      (.mk { d with objects := p.1, qat_config := qc' } r.1, r.2)

/-- The child loop of `ggml_p9ml_apply_data_free_qat`. -/
def applyQATList (config : QATConfig) : List Membrane → Nat → List Membrane × Nat
  | [], seed => ([], seed)
  | c :: cs, seed =>
      let p := applyQATMem config c seed
      let r := applyQATList config cs p.2
      (p.1 :: r.1, r.2)

end

/-- `ggml_p9ml_apply_data_free_qat` including its NULL-argument guard:
returns the C status code, the updated membrane, and the threaded seed. -/
def ggml_p9ml_apply_data_free_qat (membrane : Option Membrane)
    (config : Option QATConfig) (seed : Nat) :
    Int × Option Membrane × Nat :=
  match membrane, config with
  | some m, some c =>
      let r := applyQATMem c m seed
      (0, some r.1, r.2)
  | _, _ => (-1, membrane, seed)

/-- `ggml_p9ml_forward_tiled_qat`: after the NULL guard on `membrane` and
`config` the function loops over the given membrane's own objects computing
tile bounds with no observable effect (every write target is a discarded
local), makes no recursive call, and returns 0. -/
def ggml_p9ml_forward_tiled_qat (membrane : Option Membrane)
    (config : Option QATConfig) (reference : Option Tensor) : Int :=
  match membrane, config with
  | some _, some _ => 0
  | _, _ => -1

/-- `ggml_p9ml_mixed_precision_quantize`: after the NULL guard on `membrane`
the function loops over the given membrane's own objects with no observable
effect (the large/small branch bodies are empty and `quality_threshold` is
explicitly discarded), makes no recursive call, and returns 0. -/
def ggml_p9ml_mixed_precision_quantize (membrane : Option Membrane)
    (quality_threshold : ℚ) : Int :=
  match membrane with
  | some _ => 0
  | none => -1

mutual

/-- `ggml_p9ml_membrane_evolve` on a present membrane: the rule-application
part is an empty placeholder, then the recursive calls on the children in
order (status codes ignored); returns the (unchanged) tree state and the C
return value 0. -/
def ggml_p9ml_membrane_evolve : Membrane → Membrane × Int
  | .mk d cs => (.mk d (evolveList cs), 0)

/-- The child loop of `ggml_p9ml_membrane_evolve`. -/
def evolveList : List Membrane → List Membrane
  | [] => []
  | c :: cs => (ggml_p9ml_membrane_evolve c).1 :: evolveList cs

end

/-- `ggml_p9ml_membrane_evolve` including its NULL-argument guard. -/
def evolveTop (membrane : Option Membrane) : Int × Option Membrane :=
  match membrane with
  | none => (-1, none)
  | some m => ((ggml_p9ml_membrane_evolve m).2, some (ggml_p9ml_membrane_evolve m).1)

mutual

/-- The identities of all nodes of a membrane tree, in preorder with
children in insertion order (the root's id first). -/
def membraneIds : Membrane → List Nat
  | .mk d cs => d.memId :: membraneIdsList cs

/-- `membraneIds` over a list of subtrees. -/
def membraneIdsList : List Membrane → List Nat
  | [] => []
  | c :: cs => membraneIds c ++ membraneIdsList cs

end

mutual

/-- Visitation trace of `ggml_p9ml_apply_data_free_qat` on a present
membrane: the id of each node whose per-node body (config store + object
loop) the call executes, in execution order.  It mirrors the function's
control flow: own body first, then the recursive calls on the children in
order. -/
def applyQATVisited : Membrane → List Nat
  | .mk d cs => d.memId :: applyQATVisitedList cs

/-- `applyQATVisited` over the child loop. -/
def applyQATVisitedList : List Membrane → List Nat
  | [] => []
  | c :: cs => applyQATVisited c ++ applyQATVisitedList cs

end

mutual

/-- Visitation trace of `ggml_p9ml_membrane_evolve` on a present membrane:
the id of each node the call visits, in execution order (self, then the
recursive calls on the children in order). -/
def evolveVisited : Membrane → List Nat
  | .mk d cs => d.memId :: evolveVisitedList cs

/-- `evolveVisited` over the child loop. -/
def evolveVisitedList : List Membrane → List Nat
  | [] => []
  | c :: cs => evolveVisited c ++ evolveVisitedList cs

end

/-- Visitation trace of `ggml_p9ml_forward_tiled_qat` on a present membrane
and config: the function's only loop runs over the given membrane's own
objects and the body contains no recursive call, so exactly the one node is
visited. -/
def forwardTiledVisited (m : Membrane) : List Nat :=
  [m.data.memId]

/-- Visitation trace of `ggml_p9ml_mixed_precision_quantize` on a present
membrane: the function's only loop runs over the given membrane's own
objects and the body contains no recursive call, so exactly the one node is
visited. -/
def mixedPrecisionVisited (m : Membrane) : List Nat :=
  [m.data.memId]

mutual

/-- All buffers referenced anywhere in a membrane tree, in traversal order
(own objects first, then those of the children in order). -/
def allObjects : Membrane → List Tensor
  | .mk d cs => d.objects ++ allObjectsList cs

/-- `allObjects` over a list of subtrees. -/
def allObjectsList : List Membrane → List Tensor
  | [] => []
  | c :: cs => allObjects c ++ allObjectsList cs

end

mutual

/-- The stored `qat_config` of every node of a membrane tree, in preorder. -/
def allConfigs : Membrane → List (Option QATConfig)
  | .mk d cs => d.qat_config :: allConfigsList cs

/-- `allConfigs` over a list of subtrees. -/
def allConfigsList : List Membrane → List (Option QATConfig)
  | [] => []
  | c :: cs => allConfigs c ++ allConfigsList cs

end

mutual

/-- `true` iff every node of the tree (the given node and all its
descendants) has namespace reference `some nsId`. -/
def memAllNS (nsId : Nat) : Membrane → Bool
  | .mk d cs => (d.ns_ref == some nsId) && memAllNSList nsId cs

/-- `memAllNS` over a list of subtrees. -/
def memAllNSList (nsId : Nat) : List Membrane → Bool
  | [] => true
  | c :: cs => memAllNS nsId c && memAllNSList nsId cs

end

/-- `true` iff the two element lists have the same length and corresponding
elements differ by at most `s` in absolute value. -/
def closeList (s : ℚ) : List ℚ → List ℚ → Bool
  | [], [] => true
  | x :: xs, y :: ys => decide (|y - x| ≤ s) && closeList s xs ys
  | _, _ => false

/-- `true` iff the second tensor is the first after one pass of data-free
noise bounded by `s`: the type is unchanged; for an F32/F16 tensor with
present data, every element moved by at most `s`; any other tensor
(non-quantizable type, or NULL data) is exactly unchanged. -/
def tensorClose (s : ℚ) (t t' : Tensor) : Bool :=
  t'.type == t.type &&
    (match t.data, t'.data with
     | some d, some d' =>
         if t.type.isQuantizable then closeList s d d' else d == d'
     | none, none => true
     | _, _ => false)

/-- `tensorClose` across two buffer lists of equal length, pointwise. -/
def tensorsClose (s : ℚ) : List Tensor → List Tensor → Bool
  | [], [] => true
  | t :: ts, t' :: ts' => tensorClose s t t' && tensorsClose s ts ts'
  | _, _ => false

/-- `true` iff every buffer of the first list whose type is neither F32 nor
F16 reappears bit-for-bit unchanged (same type, same data) at the same
position in the second list. -/
def skipPreserved : List Tensor → List Tensor → Bool
  | [], [] => true
  | t :: ts, t' :: ts' =>
      (t.type.isQuantizable || t' == t) && skipPreserved ts ts'
  | _, _ => false

/-! ### Concrete inputs used by counterexamples and witnesses -/

/-- A two-node tree: a root (id 0) with one attached child (id 1). -/
def c1_tree : Membrane :=
  (ggml_p9ml_membrane_add_child (ggml_p9ml_membrane_new 0 none 0 none)
    (ggml_p9ml_membrane_new 1 none 1 none)).2.1

/-- A sample transform config. -/
def c1_cfg : QATConfig := ggml_p9ml_qat_config_new .q4_0 (1/10)

/-- A freshly created, empty parent membrane (id 0). -/
def c4_parent : Membrane := ggml_p9ml_membrane_new 0 none 0 none

/-- A freshly created, empty child membrane (id 1). -/
def c4_child : Membrane := ggml_p9ml_membrane_new 1 none 1 none

/-- A membrane (id 2) already connected to the namespace with identity 5
(as `set_root` leaves it). -/
def c4_gp : Membrane :=
  ggml_p9ml_propagate_namespace (ggml_p9ml_membrane_new 2 none 0 none) 5

/-- A membrane filled to its child capacity: 16 children attached to a
fresh root. -/
def c5_full : Membrane :=
  (List.range 16).foldl
    (fun p i =>
      (ggml_p9ml_membrane_add_child p
        (ggml_p9ml_membrane_new (i + 1) none 0 none)).2.1)
    (ggml_p9ml_membrane_new 0 none 0 none)

/-- A config with noise scale 1. -/
def c6_cfg : QATConfig := ggml_p9ml_qat_config_new .q4_0 1

/-- A root with one child, the root holding one three-element F32 buffer. -/
def c6_tree : Membrane :=
  (ggml_p9ml_membrane_add_object
    (ggml_p9ml_membrane_add_child (ggml_p9ml_membrane_new 0 none 0 none)
      (ggml_p9ml_membrane_new 1 none 1 none)).2.1
    ⟨.f32, some [1, 1, 1]⟩).2

/-! ### Helper lemmas -/

theorem Membrane.data_mk (d : MData) (cs : List Membrane) :
    (Membrane.mk d cs).data = d := rfl

theorem Membrane.children_mk (d : MData) (cs : List Membrane) :
    (Membrane.mk d cs).children = cs := rfl

mutual

/-- Namespace propagation marks the visited node. -/
theorem memAllNS_propagate (nsId : Nat) :
    ∀ m : Membrane, memAllNS nsId (ggml_p9ml_propagate_namespace m nsId) = true
  | .mk d cs => by
      rw [ggml_p9ml_propagate_namespace, memAllNS]
      simp [memAllNSList_propagateList nsId cs]

/-- Namespace propagation marks every node of every subtree in the list. -/
theorem memAllNSList_propagateList (nsId : Nat) :
    ∀ cs : List Membrane, memAllNSList nsId (propagateList cs nsId) = true
  | [] => by rw [propagateList, memAllNSList]
  | c :: cs => by
      rw [propagateList, memAllNSList]
      simp [memAllNS_propagate nsId c, memAllNSList_propagateList nsId cs]

end

mutual

/-- `evolve` leaves the tree unchanged and returns 0. -/
theorem evolve_eq : ∀ m : Membrane, ggml_p9ml_membrane_evolve m = (m, 0)
  | .mk d cs => by rw [ggml_p9ml_membrane_evolve, evolveList_eq cs]

/-- The `evolve` child loop leaves the subtree list unchanged. -/
theorem evolveList_eq : ∀ cs : List Membrane, evolveList cs = cs
  | [] => by rw [evolveList]
  | c :: cs => by rw [evolveList, evolve_eq c, evolveList_eq cs]

end

mutual

/-- The data-free-QAT pass visits exactly the nodes of the tree, in
preorder. -/
theorem applyQATVisited_eq :
    ∀ m : Membrane, applyQATVisited m = membraneIds m
  | .mk d cs => by
      rw [applyQATVisited, membraneIds, applyQATVisitedList_eq cs]

/-- List version of `applyQATVisited_eq`. -/
theorem applyQATVisitedList_eq :
    ∀ cs : List Membrane, applyQATVisitedList cs = membraneIdsList cs
  | [] => by rw [applyQATVisitedList, membraneIdsList]
  | c :: cs => by
      rw [applyQATVisitedList, membraneIdsList, applyQATVisited_eq c,
        applyQATVisitedList_eq cs]

end

/-- A type is quantizable exactly when it is F32 or F16. -/
theorem isQuantizable_iff (ty : GGMLType) :
    ty.isQuantizable = true ↔ (ty = .f32 ∨ ty = .f16) := by
  cases ty <;> simp [GGMLType.isQuantizable]

/-- One noise draw lies in the closed interval `[-scale, scale]`. -/
theorem abs_generate_noise_le (scale : ℚ) (h : 0 ≤ scale) (seed : Nat) :
    |(ggml_p9ml_generate_noise scale seed).1| ≤ scale := by
  rw [ggml_p9ml_generate_noise]
  have hden : (0:ℚ) < ((2 ^ 31 - 1 : ℕ) : ℚ) := by norm_num
  set k : ℕ := noiseSeedStep seed % 2 ^ 31 with hk
  have hkb : (k : ℚ) ≤ ((2 ^ 31 - 1 : ℕ) : ℚ) := by
    have : k < 2 ^ 31 := Nat.mod_lt _ (by norm_num)
    exact_mod_cast Nat.le_pred_of_lt this
  have h0 : (0:ℚ) ≤ (k : ℚ) / ((2 ^ 31 - 1 : ℕ) : ℚ) :=
    div_nonneg (Nat.cast_nonneg k) (le_of_lt hden)
  have h1 : (k : ℚ) / ((2 ^ 31 - 1 : ℕ) : ℚ) ≤ 1 := by
    rw [div_le_one hden]; exact hkb
  set n : ℚ := (k : ℚ) / ((2 ^ 31 - 1 : ℕ) : ℚ)
  have habs : |n - 1/2| ≤ 1/2 := abs_le.mpr ⟨by linarith, by linarith⟩
  calc |(n - 1/2) * 2 * scale| = |n - 1/2| * (2 * scale) := by
        rw [mul_assoc, abs_mul, abs_of_nonneg (by linarith : (0:ℚ) ≤ 2 * scale)]
    _ ≤ (1/2) * (2 * scale) := by
        have h2 : (0:ℚ) ≤ 2 * scale := by linarith
        exact mul_le_mul_of_nonneg_right habs h2
    _ = scale := by ring

/-- A noise draw at scale 0 is exactly 0. -/
theorem generate_noise_zero (seed : Nat) :
    (ggml_p9ml_generate_noise 0 seed).1 = 0 := by
  rw [ggml_p9ml_generate_noise]; ring

/-- Element-wise: the noise loop moves every element by at most `s`. -/
theorem closeList_addNoise (s : ℚ) (h : 0 ≤ s) :
    ∀ (d : List ℚ) (seed : Nat), closeList s d (addNoise s d seed).1 = true
  | [], _ => by rw [addNoise, closeList]
  | x :: xs, seed => by
      rw [addNoise]
      simp only [closeList, Bool.and_eq_true, decide_eq_true_eq]
      refine ⟨?_, closeList_addNoise s h xs _⟩
      have := abs_generate_noise_le s h seed
      simpa using this

/-- The noise loop at scale 0 leaves the elements unchanged. -/
theorem addNoise_zero :
    ∀ (d : List ℚ) (seed : Nat), (addNoise 0 d seed).1 = d
  | [], _ => by rw [addNoise]
  | x :: xs, seed => by
      rw [addNoise]
      simp [generate_noise_zero, addNoise_zero xs]

/-- Per-tensor noise bound: one loop iteration of the pass relates the old
and the new tensor by `tensorClose`. -/
theorem tensorClose_qatTensor (c : QATConfig) (h : 0 ≤ c.noise_scale)
    (t : Tensor) (seed : Nat) :
    tensorClose c.noise_scale t (qatTensor c t seed).1 = true := by
  obtain ⟨ty, dt⟩ := t
  cases ty <;> cases dt <;>
    simp [qatTensor, tensorClose, GGMLType.isQuantizable,
      closeList_addNoise c.noise_scale h]

/-- Per-tensor: a non-quantizable tensor is returned bit-for-bit unchanged,
together with the untouched seed. -/
theorem qatTensor_skip (c : QATConfig) (t : Tensor) (seed : Nat)
    (h : t.type.isQuantizable = false) : qatTensor c t seed = (t, seed) := by
  obtain ⟨ty, dt⟩ := t
  cases ty <;> simp_all [qatTensor, GGMLType.isQuantizable]

/-- Per-tensor: at noise scale 0 the tensor is returned unchanged. -/
theorem qatTensor_zero (c : QATConfig) (h : c.noise_scale = 0)
    (t : Tensor) (seed : Nat) : (qatTensor c t seed).1 = t := by
  obtain ⟨ty, dt⟩ := t
  cases ty <;> cases dt <;> simp [qatTensor, h, addNoise_zero]

/-- Per-object-array noise bound. -/
theorem tensorsClose_qatObjects (c : QATConfig) (h : 0 ≤ c.noise_scale) :
    ∀ (ts : List Tensor) (seed : Nat),
      tensorsClose c.noise_scale ts (qatObjects c ts seed).1 = true
  | [], _ => by rw [qatObjects, tensorsClose]
  | t :: ts, seed => by
      rw [qatObjects]
      simp only [tensorsClose, Bool.and_eq_true]
      exact ⟨tensorClose_qatTensor c h t seed, tensorsClose_qatObjects c h ts _⟩

/-- Per-object-array: at noise scale 0 all tensors are unchanged. -/
theorem qatObjects_zero (c : QATConfig) (h : c.noise_scale = 0) :
    ∀ (ts : List Tensor) (seed : Nat), (qatObjects c ts seed).1 = ts
  | [], _ => by rw [qatObjects]
  | t :: ts, seed => by
      rw [qatObjects]
      simp [qatTensor_zero c h t seed, qatObjects_zero c h ts]

/-- Per-object-array: non-quantizable tensors are preserved in place. -/
theorem skipPreserved_qatObjects (c : QATConfig) :
    ∀ (ts : List Tensor) (seed : Nat),
      skipPreserved ts (qatObjects c ts seed).1 = true
  | [], _ => by rw [qatObjects, skipPreserved]
  | t :: ts, seed => by
      rw [qatObjects]
      simp only [skipPreserved, Bool.and_eq_true, Bool.or_eq_true]
      refine ⟨?_, skipPreserved_qatObjects c ts _⟩
      cases hq : t.type.isQuantizable with
      | true => exact Or.inl rfl
      | false => exact Or.inr (by simp [qatTensor_skip c t seed hq])

/-- `tensorsClose` is compatible with appending buffer lists. -/
theorem tensorsClose_append (s : ℚ) :
    ∀ a a' b b' : List Tensor, tensorsClose s a a' = true →
      tensorsClose s b b' = true → tensorsClose s (a ++ b) (a' ++ b') = true
  | [], [], _, _, _, hb => by simpa
  | [], _ :: _, _, _, ha, _ => by simp [tensorsClose] at ha
  | _ :: _, [], _, _, ha, _ => by simp [tensorsClose] at ha
  | t :: ts, t' :: ts', b, b', ha, hb => by
      simp only [tensorsClose, Bool.and_eq_true] at ha
      simp only [List.cons_append, tensorsClose, Bool.and_eq_true]
      exact ⟨ha.1, tensorsClose_append s ts ts' b b' ha.2 hb⟩

/-- `skipPreserved` is compatible with appending buffer lists. -/
theorem skipPreserved_append :
    ∀ a a' b b' : List Tensor, skipPreserved a a' = true →
      skipPreserved b b' = true → skipPreserved (a ++ b) (a' ++ b') = true
  | [], [], _, _, _, hb => by simpa
  | [], _ :: _, _, _, ha, _ => by simp [skipPreserved] at ha
  | _ :: _, [], _, _, ha, _ => by simp [skipPreserved] at ha
  | t :: ts, t' :: ts', b, b', ha, hb => by
      simp only [skipPreserved, Bool.and_eq_true] at ha
      simp only [List.cons_append, skipPreserved, Bool.and_eq_true]
      exact ⟨ha.1, skipPreserved_append ts ts' b b' ha.2 hb⟩

mutual

/-- Tree-level noise bound: the pass relates every buffer of the tree to
its old value by `tensorClose`. -/
theorem tensorsClose_applyQATMem (c : QATConfig) (h : 0 ≤ c.noise_scale) :
    ∀ (m : Membrane) (seed : Nat),
      tensorsClose c.noise_scale (allObjects m)
        (allObjects (applyQATMem c m seed).1) = true
  | .mk d cs, seed => by
      rw [applyQATMem]
      simp only [allObjects, Membrane.data_mk]
      exact tensorsClose_append _ _ _ _ _
        (tensorsClose_qatObjects c h d.objects seed)
        (tensorsClose_applyQATList c h cs _)

/-- List version of `tensorsClose_applyQATMem`. -/
theorem tensorsClose_applyQATList (c : QATConfig) (h : 0 ≤ c.noise_scale) :
    ∀ (cs : List Membrane) (seed : Nat),
      tensorsClose c.noise_scale (allObjectsList cs)
        (allObjectsList (applyQATList c cs seed).1) = true
  | [], _ => by rw [applyQATList]; rw [allObjectsList, tensorsClose]
  | m :: ms, seed => by
      rw [applyQATList]
      simp only [allObjectsList]
      exact tensorsClose_append _ _ _ _ _
        (tensorsClose_applyQATMem c h m seed)
        (tensorsClose_applyQATList c h ms _)

end

mutual

/-- Tree-level: at noise scale 0 the pass changes no buffer anywhere. -/
theorem allObjects_applyQATMem_zero (c : QATConfig) (h : c.noise_scale = 0) :
    ∀ (m : Membrane) (seed : Nat),
      allObjects (applyQATMem c m seed).1 = allObjects m
  | .mk d cs, seed => by
      rw [applyQATMem]
      simp only [allObjects, Membrane.data_mk]
      rw [qatObjects_zero c h d.objects seed,
        allObjectsList_applyQATList_zero c h cs]

/-- List version of `allObjects_applyQATMem_zero`. -/
theorem allObjectsList_applyQATList_zero (c : QATConfig)
    (h : c.noise_scale = 0) :
    ∀ (cs : List Membrane) (seed : Nat),
      allObjectsList (applyQATList c cs seed).1 = allObjectsList cs
  | [], _ => by rw [applyQATList]
  | m :: ms, seed => by
      rw [applyQATList]
      simp only [allObjectsList]
      rw [allObjects_applyQATMem_zero c h m seed,
        allObjectsList_applyQATList_zero c h ms]

end

mutual

/-- Tree-level frame property: every non-quantizable buffer anywhere in the
tree is bit-for-bit unchanged by the pass. -/
theorem skipPreserved_applyQATMem (c : QATConfig) :
    ∀ (m : Membrane) (seed : Nat),
      skipPreserved (allObjects m) (allObjects (applyQATMem c m seed).1) = true
  | .mk d cs, seed => by
      rw [applyQATMem]
      simp only [allObjects, Membrane.data_mk]
      exact skipPreserved_append _ _ _ _
        (skipPreserved_qatObjects c d.objects seed)
        (skipPreserved_applyQATList c cs _)

/-- List version of `skipPreserved_applyQATMem`. -/
theorem skipPreserved_applyQATList (c : QATConfig) :
    ∀ (cs : List Membrane) (seed : Nat),
      skipPreserved (allObjectsList cs)
        (allObjectsList (applyQATList c cs seed).1) = true
  | [], _ => by rw [applyQATList]; rw [allObjectsList, skipPreserved]
  | m :: ms, seed => by
      rw [applyQATList]
      simp only [allObjectsList]
      exact skipPreserved_append _ _ _ _
        (skipPreserved_applyQATMem c m seed)
        (skipPreserved_applyQATList c ms _)

end

mutual

/-- Tree-level first-write-wins: after one pass, every node's stored config
is its old one if present, else a copy of the pass's config. -/
theorem allConfigs_applyQATMem (c : QATConfig) :
    ∀ (m : Membrane) (seed : Nat),
      allConfigs (applyQATMem c m seed).1 =
        (allConfigs m).map (fun q => some (q.getD c))
  | .mk d cs, seed => by
      rw [applyQATMem]
      simp only [allConfigs, Membrane.data_mk, List.map_cons]
      rw [allConfigsList_applyQATList c cs]
      cases d.qat_config <;> rfl

/-- List version of `allConfigs_applyQATMem`. -/
theorem allConfigsList_applyQATList (c : QATConfig) :
    ∀ (cs : List Membrane) (seed : Nat),
      allConfigsList (applyQATList c cs seed).1 =
        (allConfigsList cs).map (fun q => some (q.getD c))
  | [], _ => by rw [applyQATList]; rw [allConfigsList]; rfl
  | m :: ms, seed => by
      rw [applyQATList]
      simp only [allConfigsList, List.map_append]
      rw [allConfigs_applyQATMem c m seed, allConfigsList_applyQATList c ms]

end

/-- The root node's stored config after one pass. -/
theorem applyQATMem_qat_config (c : QATConfig) (m : Membrane) (seed : Nat) :
    (applyQATMem c m seed).1.data.qat_config =
      some (m.data.qat_config.getD c) := by
  obtain ⟨d, cs⟩ := m
  rw [applyQATMem]
  cases hq : d.qat_config <;> simp [hq, Membrane.data_mk]


mutual

/-- The evolution pass visits exactly the nodes of the tree, in preorder. -/
theorem evolveVisited_eq :
    ∀ m : Membrane, evolveVisited m = membraneIds m
  | .mk d cs => by
      rw [evolveVisited, membraneIds, evolveVisitedList_eq cs]

/-- List version of `evolveVisited_eq`. -/
theorem evolveVisitedList_eq :
    ∀ cs : List Membrane, evolveVisitedList cs = membraneIdsList cs
  | [] => by rw [evolveVisitedList, membraneIdsList]
  | c :: cs => by
      rw [evolveVisitedList, membraneIdsList, evolveVisited_eq c,
        evolveVisitedList_eq cs]

end

/-! ### Claims -/

/-- C1, counterexample: on a root (id 0) with one child (id 1), both
`forward_tiled_quant` and `mixed_precision_quant` return success, yet node 1
is a descendant of the root and neither pass ever visits it — so the claim
that all four passes recurse into every child is false of the code. -/
theorem c1_traversal_counterexample :
    ggml_p9ml_forward_tiled_qat (some c1_tree) (some c1_cfg) none = 0 ∧
    ggml_p9ml_mixed_precision_quantize (some c1_tree) (95/100) = 0 ∧
    1 ∈ membraneIds c1_tree ∧
    1 ∉ forwardTiledVisited c1_tree ∧
    1 ∉ mixedPrecisionVisited c1_tree := by
  refine ⟨rfl, rfl, ?_, ?_, ?_⟩ <;> decide

/-- C1, amended: only `apply_data_free_quant` and `evolve` follow the
preorder depth-first traversal contract (self-action before recursion,
children in insertion order), visiting every descendant of the root;
`forward_tiled_quant` and `mixed_precision_quant` act only on the called
node's own buffers and never recurse into children.  All four passes return
success on present arguments. -/
theorem c1_traversal_amended (m : Membrane) (c : QATConfig) (q : ℚ)
    (r : Option Tensor) (seed : Nat) :
    applyQATVisited m = membraneIds m ∧
    evolveVisited m = membraneIds m ∧
    forwardTiledVisited m = [m.data.memId] ∧
    mixedPrecisionVisited m = [m.data.memId] ∧
    (ggml_p9ml_apply_data_free_qat (some m) (some c) seed).1 = 0 ∧
    (evolveTop (some m)).1 = 0 ∧
    ggml_p9ml_forward_tiled_qat (some m) (some c) r = 0 ∧
    ggml_p9ml_mixed_precision_quantize (some m) q = 0 := by
  refine ⟨applyQATVisited_eq m, evolveVisited_eq m, rfl, rfl, rfl, ?_, rfl, rfl⟩
  rw [evolveTop, evolve_eq m]

/-- C2: first-write-wins config caching.  One pass rewrites every node's
stored config to its old value when present and to a copy of the passed
config otherwise; a second pass with any other config leaves all stored
configs exactly as after the first pass, and in particular the root retains
the first call's config (hence its `noise_scale`). -/
theorem c2_first_write_wins (ca cb : QATConfig) (m : Membrane)
    (seed1 seed2 : Nat) :
    allConfigs (applyQATMem ca m seed1).1 =
      (allConfigs m).map (fun q => some (q.getD ca)) ∧
    allConfigs (applyQATMem cb (applyQATMem ca m seed1).1 seed2).1 =
      (allConfigs m).map (fun q => some (q.getD ca)) ∧
    (applyQATMem cb (applyQATMem ca m seed1).1 seed2).1.data.qat_config =
      some (m.data.qat_config.getD ca) := by
  refine ⟨allConfigs_applyQATMem ca m seed1, ?_, ?_⟩
  · rw [allConfigs_applyQATMem, allConfigs_applyQATMem, List.map_map]
    rfl
  · rw [applyQATMem_qat_config, applyQATMem_qat_config]
    rfl

/-- C3: `set_root` on a present root returns success, stores the propagated
tree as the namespace root, and the propagation gives every node reachable
from the root (itself included) namespace reference `ns`, overwriting any
prior reference; on a NULL root it returns the error code and leaves the
namespace unchanged. -/
theorem c3_set_root_propagates (ns : Namespace) (r : Membrane) :
    (ggml_p9ml_namespace_set_root ns (some r)).1 = 0 ∧
    (ggml_p9ml_namespace_set_root ns (some r)).2.root =
      some (ggml_p9ml_propagate_namespace r ns.nsId) ∧
    memAllNS ns.nsId (ggml_p9ml_propagate_namespace r ns.nsId) = true ∧
    (ggml_p9ml_namespace_set_root ns none).1 = -1 ∧
    (ggml_p9ml_namespace_set_root ns none).2 = ns := by
  exact ⟨rfl, rfl, memAllNS_propagate ns.nsId r, rfl, rfl⟩

/-- C4: snapshot semantics of `add_child`.  On success the child's parent
reference becomes the parent and its namespace reference becomes the
parent's namespace reference at the moment of attachment; attaching the
parent to a membrane that carries a (possibly different) namespace
afterwards updates only the parent's own namespace reference and leaves the
previously attached child — the parent's whole children array — untouched. -/
theorem c4_add_child_snapshot (parent child gp : Membrane)
    (h1 : parent.children.length < parent.data.max_children)
    (h2 : gp.children.length < gp.data.max_children) :
    (ggml_p9ml_membrane_add_child parent child).1 = 0 ∧
    (ggml_p9ml_membrane_add_child parent child).2.2.data.parent =
      some parent.data.memId ∧
    (ggml_p9ml_membrane_add_child parent child).2.2.data.ns_ref =
      parent.data.ns_ref ∧
    (ggml_p9ml_membrane_add_child parent child).2.1.children =
      parent.children ++ [(ggml_p9ml_membrane_add_child parent child).2.2] ∧
    (ggml_p9ml_membrane_add_child gp
        (ggml_p9ml_membrane_add_child parent child).2.1).2.2.data.ns_ref =
      gp.data.ns_ref ∧
    (ggml_p9ml_membrane_add_child gp
        (ggml_p9ml_membrane_add_child parent child).2.1).2.2.children =
      parent.children ++ [(ggml_p9ml_membrane_add_child parent child).2.2] := by
  rw [ggml_p9ml_membrane_add_child, if_neg (not_le.mpr h1)]
  rw [ggml_p9ml_membrane_add_child, if_neg (not_le.mpr h2)]
  simp [Membrane.data_mk, Membrane.children_mk]

/-- C4 witness: the theorem applied to a fresh parent (id 0), a fresh child
(id 1), and a membrane already connected to namespace 5. -/
theorem c4_add_child_snapshot_witness :
    (c4_parent.children.length < c4_parent.data.max_children ∧
     c4_gp.children.length < c4_gp.data.max_children) ∧
    ((ggml_p9ml_membrane_add_child c4_parent c4_child).1 = 0 ∧
     (ggml_p9ml_membrane_add_child c4_parent c4_child).2.2.data.parent =
       some c4_parent.data.memId ∧
     (ggml_p9ml_membrane_add_child c4_parent c4_child).2.2.data.ns_ref =
       c4_parent.data.ns_ref ∧
     (ggml_p9ml_membrane_add_child c4_parent c4_child).2.1.children =
       c4_parent.children ++
         [(ggml_p9ml_membrane_add_child c4_parent c4_child).2.2] ∧
     (ggml_p9ml_membrane_add_child c4_gp
         (ggml_p9ml_membrane_add_child c4_parent c4_child).2.1).2.2.data.ns_ref =
       c4_gp.data.ns_ref ∧
     (ggml_p9ml_membrane_add_child c4_gp
         (ggml_p9ml_membrane_add_child c4_parent c4_child).2.1).2.2.children =
       c4_parent.children ++
         [(ggml_p9ml_membrane_add_child c4_parent c4_child).2.2]) :=
  ⟨⟨by decide, by decide⟩,
    c4_add_child_snapshot c4_parent c4_child c4_gp (by decide) (by decide)⟩

/-- C5: capacity enforcement.  Under the construction invariant that the
counts never exceed the capacities, `add_child` fails exactly when the
child count equals `max_children` and `add_object` fails exactly when the
object count equals `max_objects`; a failing call returns every involved
object unchanged; the capacities are fixed at construction to the defaults
16 and 256. -/
theorem c5_capacity_enforcement (m child : Membrane) (t : Tensor)
    (hc : m.children.length ≤ m.data.max_children)
    (ho : m.data.objects.length ≤ m.data.max_objects) :
    (((ggml_p9ml_membrane_add_child m child).1 = -1) ↔
      m.children.length = m.data.max_children) ∧
    ((ggml_p9ml_membrane_add_child m child).1 = -1 →
      ggml_p9ml_membrane_add_child m child = (-1, m, child)) ∧
    (((ggml_p9ml_membrane_add_object m t).1 = -1) ↔
      m.data.objects.length = m.data.max_objects) ∧
    ((ggml_p9ml_membrane_add_object m t).1 = -1 →
      ggml_p9ml_membrane_add_object m t = (-1, m)) ∧
    (∀ (memId : Nat) (name : Option (List Char)) (level : Int)
        (ctx : Option Nat),
      (ggml_p9ml_membrane_new memId name level ctx).data.max_children = 16 ∧
      (ggml_p9ml_membrane_new memId name level ctx).data.max_objects = 256) := by
  refine ⟨?_, ?_, ?_, ?_, fun _ _ _ _ => ⟨rfl, rfl⟩⟩
  · rw [ggml_p9ml_membrane_add_child]
    split
    case isTrue h => simp [le_antisymm hc h]
    case isFalse h => simp [Nat.ne_of_lt (not_le.mp h)]
  · rw [ggml_p9ml_membrane_add_child]
    split
    case isTrue h => intro _; rfl
    case isFalse h => intro h0; simp at h0
  · rw [ggml_p9ml_membrane_add_object]
    split
    case isTrue h => simp [le_antisymm ho h]
    case isFalse h => simp [Nat.ne_of_lt (not_le.mp h)]
  · rw [ggml_p9ml_membrane_add_object]
    split
    case isTrue h => intro _; rfl
    case isFalse h => intro h0; simp at h0

/-- C5 witness: the theorem applied to a membrane holding 16 children (its
full child capacity) and no objects. -/
theorem c5_capacity_enforcement_witness :
    (c5_full.children.length ≤ c5_full.data.max_children ∧
     c5_full.data.objects.length ≤ c5_full.data.max_objects) ∧
    ((((ggml_p9ml_membrane_add_child c5_full c4_child).1 = -1) ↔
       c5_full.children.length = c5_full.data.max_children) ∧
     ((ggml_p9ml_membrane_add_child c5_full c4_child).1 = -1 →
       ggml_p9ml_membrane_add_child c5_full c4_child = (-1, c5_full, c4_child)) ∧
     (((ggml_p9ml_membrane_add_object c5_full ⟨.f32, none⟩).1 = -1) ↔
       c5_full.data.objects.length = c5_full.data.max_objects) ∧
     ((ggml_p9ml_membrane_add_object c5_full ⟨.f32, none⟩).1 = -1 →
       ggml_p9ml_membrane_add_object c5_full ⟨.f32, none⟩ = (-1, c5_full)) ∧
     (∀ (memId : Nat) (name : Option (List Char)) (level : Int)
         (ctx : Option Nat),
       (ggml_p9ml_membrane_new memId name level ctx).data.max_children = 16 ∧
       (ggml_p9ml_membrane_new memId name level ctx).data.max_objects = 256)) :=
  ⟨⟨by decide, by decide⟩,
    c5_capacity_enforcement c5_full c4_child ⟨.f32, none⟩ (by decide) (by decide)⟩

/-- C6: noise bound.  For a non-negative noise scale, the pass relates
every buffer of the tree to its old value by `tensorClose` — in particular
every element of every F32/F16 buffer receives exactly one additive
perturbation in `[-s, +s]`, so it ends in `[old - s, old + s]` — and at
scale 0 every buffer of the tree is exactly unchanged. -/
theorem c6_noise_bound (c : QATConfig) (h : 0 ≤ c.noise_scale)
    (m : Membrane) (seed : Nat) :
    tensorsClose c.noise_scale (allObjects m)
      (allObjects (applyQATMem c m seed).1) = true ∧
    (c.noise_scale = 0 →
      allObjects (applyQATMem c m seed).1 = allObjects m) := by
  exact ⟨tensorsClose_applyQATMem c h m seed,
    fun h0 => allObjects_applyQATMem_zero c h0 m seed⟩

/-- C6 witness: the theorem applied with noise scale 1 to a two-node tree
whose root holds one F32 buffer. -/
theorem c6_noise_bound_witness :
    0 ≤ c6_cfg.noise_scale ∧
    (tensorsClose c6_cfg.noise_scale (allObjects c6_tree)
        (allObjects (applyQATMem c6_cfg c6_tree 12345).1) = true ∧
      (c6_cfg.noise_scale = 0 →
        allObjects (applyQATMem c6_cfg c6_tree 12345).1 =
          allObjects c6_tree)) :=
  ⟨zero_le_one, c6_noise_bound c6_cfg zero_le_one c6_tree 12345⟩

/-- C7: type-skip rule.  Every buffer anywhere in the tree whose element
type is neither F32 nor F16 is bit-for-bit unchanged (same type tag, same
data) by the pass, for every config and seed. -/
theorem c7_type_skip (c : QATConfig) (m : Membrane) (seed : Nat) :
    skipPreserved (allObjects m) (allObjects (applyQATMem c m seed).1) = true :=
  skipPreserved_applyQATMem c m seed

/-- C8: `apply_data_free_quant` returns success exactly when both the
membrane and the config are present, and the invalid-arguments error code
-1 otherwise. -/
theorem c8_invalid_args (m : Option Membrane) (c : Option QATConfig)
    (seed : Nat) :
    (ggml_p9ml_apply_data_free_qat m c seed).1 =
      if m.isSome && c.isSome then 0 else -1 := by
  cases m <;> cases c <;> rfl

/-- C9: `evolve` on a present membrane returns success and performs no
mutation anywhere in the tree — the returned tree (all names, levels,
counts, children, objects, parents, namespace references and stored
configs) is exactly the input tree. -/
theorem c9_evolve_pure (m : Membrane) : evolveTop (some m) = (0, some m) := by
  rw [evolveTop, evolve_eq m]

/-- C10: name handling at construction.  A NULL name yields `"unnamed"` for
a membrane and `"default"` for a namespace; every supplied name is stored
truncated to its first at-most-63 characters (and the stored array is
NUL-terminated at or before index 63, which the `List Char` model renders
as the stored name being exactly this truncation), so the stored length is
always at most 63. -/
theorem c10_name_handling (memId : Nat) (level : Int) (ctx : Option Nat)
    (backend : Option Nat) (s : List Char) :
    (ggml_p9ml_membrane_new memId none level ctx).data.name =
      "unnamed".toList ∧
    (ggml_p9ml_namespace_new memId none backend).name = "default".toList ∧
    (ggml_p9ml_membrane_new memId (some s) level ctx).data.name =
      s.take 63 ∧
    (ggml_p9ml_namespace_new memId (some s) backend).name = s.take 63 ∧
    (ggml_p9ml_membrane_new memId (some s) level ctx).data.name.length ≤ 63 ∧
    (ggml_p9ml_namespace_new memId (some s) backend).name.length ≤ 63 := by
  refine ⟨rfl, rfl, rfl, rfl, ?_, ?_⟩ <;>
    · show (s.take 63).length ≤ 63
      rw [List.length_take]
      exact min_le_left _ _

end P9ML
